import Mathlib

/-!
Shallow embedding of `stellargraph/mapper/graph_generator.py` and
`stellargraph/mapper/padded_graph_generator.py`.

The two Python classes are validate-then-delegate adapters over external
collaborators (the `StellarGraph` data type and the sequence constructors
`GraphSequence` / `PaddedGraphSequence`).  The collaborators are modelled
abstractly: a graph is a record of exactly the observations the adapter
code makes of it (node-type count, feature dimensionality, ML readiness),
and the sequence constructors are plain record constructors, since the
adapters only build and return them.

Python exceptions are modelled by an error type distinguishing the
classifications the spec talks about (`TypeError`, `ValueError`, and the
unclassified `IndexError` coming from out-of-range list indexing).
Fallible code returns `Except PyError α`.  Mutable attribute assignment is
made explicit: a constructor returns the constructed record, and `flow`
returns the (unchanged, since the method body assigns no attribute) state
paired with its result.
-/

/-- Python exception classification visible to this module: `TypeError`,
`ValueError`, and the unclassified `IndexError` raised by out-of-range
list indexing. -/
inductive PyError where
  | typeError (msg : String)
  | valueError (msg : String)
  | indexError
  deriving Repr, DecidableEq

/-- Modelled from the spec: the external graph collaborator, reduced to the
observations the adapter code makes of a graph — "a graph data type exposing
node listing, per-node feature retrieval, node-type enumeration, a
single-node-type assertion helper, and an ML-readiness check".
`nodeTypeCount` is the number of distinct node types (`len(graph.node_types)`),
`featureDim` the node-feature dimensionality
(`graph.node_features(...).shape[1]` and `graph.node_feature_sizes()[t]`),
and `mlReady` whether `check_graph_for_ml` passes. -/
structure StellarGraph where
  nodeTypeCount : Nat
  featureDim : Nat
  mlReady : Bool
  deriving Repr, DecidableEq

/-- An element of the list handed to a generator constructor: either an
actual `StellarGraph`, or some other Python object (carrying only its type
name, which is all the adapters use of it). -/
inductive GraphInput where
  | graph (g : StellarGraph)
  | other (typeName : String)
  deriving Repr, DecidableEq

/-- The `isinstance(graph, StellarGraph)` test. -/
def GraphInput.isStellarGraph : GraphInput → Bool
  | .graph _ => true
  | .other _ => false

/-- The Python `type(x).__name__` of an input element. -/
def GraphInput.pyTypeName : GraphInput → String
  | .graph _ => "StellarGraph"
  | .other tn => tn

/-- Node-type count of an input element; the `other` case is unreachable in
the adapters because every access is guarded by the `isinstance` check. -/
def GraphInput.nodeTypeCount : GraphInput → Nat
  | .graph g => g.nodeTypeCount
  | .other _ => 0

/-- Feature dimensionality of an input element; the `other` case is
unreachable in the adapters (guarded by the `isinstance` check). -/
def GraphInput.featureDim : GraphInput → Nat
  | .graph g => g.featureDim
  | .other _ => 0

/-- ML readiness of an input element; the `other` case is unreachable in
the adapters (guarded by the `isinstance` check). -/
def GraphInput.mlReady : GraphInput → Bool
  | .graph g => g.mlReady
  | .other _ => false

/-- The `targets` argument of `flow`: either a real iterable (a 2-D numeric
array, modelled as its list of rows — the adapters only take its `len` and
forward it) or a non-iterable object carrying its type name.
`is_real_iterable targets` holds exactly on the first constructor. -/
inductive TargetsArg where
  | iterable (rows : List (List Int))
  | nonIterable (typeName : String)
  deriving Repr, DecidableEq

/-- Python `len` of an iterable `targets` value. -/
def TargetsArg.len : TargetsArg → Nat
  | .iterable rows => rows.length
  | .nonIterable _ => 0

/-- The `batch_size` argument: a Python `int`, or some other object
(carrying its type name, used only in the error message). -/
inductive BatchSizeArg where
  | int (n : Int)
  | other (typeName : String)
  deriving Repr, DecidableEq

/-- Resolution of a Python index against a list length: a negative index
counts from the end. -/
def pyResolve (n : Nat) (i : Int) : Int :=
  if i < 0 then i + n else i

/-- Python list indexing `xs[i]`: a negative index counts from the end;
an index outside `[-len xs, len xs)` raises `IndexError`. -/
def pyGetItem {α : Type} (xs : List α) (i : Int) : Except PyError α :=
  if h : 0 ≤ pyResolve xs.length i ∧ (pyResolve xs.length i).toNat < xs.length then
    .ok (xs.get ⟨(pyResolve xs.length i).toNat, h.2⟩)
  else .error .indexError

/-- The set of Python indices into a list of length `n` that do not raise
`IndexError`: exactly those in the interval from `-n` (inclusive) to `n`
(exclusive). -/
def pyValidIndex (n : Nat) (i : Int) : Prop :=
  -(n : Int) ≤ i ∧ i < n

instance (n : Nat) (i : Int) : Decidable (pyValidIndex n i) := by
  unfold pyValidIndex
  infer_instance

/-- Total description of Python list indexing on graph lists, meaningful on
valid indices (used to state what the slicing step selects). -/
def pyNth (xs : List GraphInput) (i : Int) : GraphInput :=
  (pyGetItem xs i).toOption.getD (GraphInput.other "")

/-- An element of the constructor argument list that passes every
per-element check of the padded validation loop and has feature
dimensionality `d`. -/
def goodInput (d : Nat) (x : GraphInput) : Prop :=
  ∃ g, x = GraphInput.graph g ∧ g.nodeTypeCount = 1 ∧ g.mlReady = true ∧
    g.featureDim = d

/-- The list comprehension `[self.graphs[i] for i in graph_ilocs]`:
elements are looked up left to right, and the first out-of-range index
aborts the whole comprehension with its `IndexError`. -/
def sliceGraphs (graphs : List GraphInput) : List Int → Except PyError (List GraphInput)
  | [] => .ok []
  | i :: rest => do
    let g ← pyGetItem graphs i
    let gs ← sliceGraphs graphs rest
    pure (g :: gs)

/-- The state of a constructed `GraphGenerator`: the attributes its
`__init__` assigns. -/
structure GraphGenerator where
  graphs : List GraphInput
  node_features_size : Nat
  name : Option String
  deriving Repr, DecidableEq

/-- The state of a constructed `PaddedGraphGenerator`: the attributes its
`__init__` assigns.  `node_features_size` starts as `None` and is only set
when the graph list is non-empty. -/
structure PaddedGraphGenerator where
  graphs : List GraphInput
  node_features_size : Option Nat
  name : Option String
  deriving Repr, DecidableEq

/-- The external `GraphSequence` collaborator, modelled as the record of
arguments `GraphGenerator.flow` hands to its constructor. -/
structure GraphSequence where
  graphs : List GraphInput
  targets : Option TargetsArg
  batch_size : BatchSizeArg
  name : Option String
  deriving Repr, DecidableEq

/-- The external `PaddedGraphSequence` collaborator, modelled as the record
of arguments `PaddedGraphGenerator.flow` hands to its constructor (by the
time it is called, `batch_size` is known to be an `int`). -/
structure PaddedGraphSequence where
  graphs : List GraphInput
  targets : Option TargetsArg
  symmetric_normalization : Bool
  batch_size : Int
  name : Option String
  shuffle : Bool
  seed : Option Int
  deriving Repr, DecidableEq

/-- Message of the `TypeError` raised by `GraphGenerator.__init__`. -/
def ggGraphTypeMsg : String :=
  "All graphs must be a StellarGraph or StellarDiGraph object."

/-- Modelled from the spec: message for the value-classified failure of the
external `check_graph_for_ml` readiness check ("Constructing either
generator with a graph lacking ML-ready features ... fails with a
value-classified error"). -/
def mlCheckMsg : String :=
  "This StellarGraph has no numeric feature attributes for nodes"

/-- Message of the `ValueError` raised by `GraphGenerator.__init__` on a
graph with multiple node types. -/
def ggMultiTypeMsg : String :=
  "GraphGenerator: node generator requires graph with single node type; a graph with multiple node types is passed. Stopping."

/-- The constructor `GraphGenerator.__init__(graphs, name)`.  Statement order of the source:
the `isinstance` loop over all elements; the assignment of `self.graphs`;
the unguarded read `graphs[0].node_features(graphs[0].nodes()).shape[1]`
(an `IndexError` on an empty list); the assignment of `self.name`; the
`check_graph_for_ml` loop; the single-node-type loop. -/
def GraphGenerator.init (graphs : List GraphInput) (name : Option String) :
    Except PyError GraphGenerator :=
  if ¬ graphs.all GraphInput.isStellarGraph then
    .error (.typeError ggGraphTypeMsg)
  else
    match graphs with
    | [] => .error .indexError
    | g0 :: _ =>
      if ¬ graphs.all GraphInput.mlReady then
        .error (.valueError mlCheckMsg)
      else if ¬ graphs.all (fun g => g.nodeTypeCount ≤ 1) then
        .error (.valueError ggMultiTypeMsg)
      else
        .ok { graphs := graphs, node_features_size := g0.featureDim, name := name }

/-- Message of the `TypeError` raised by `PaddedGraphGenerator.__init__` on
a non-`StellarGraph` element. -/
def pggGraphTypeMsg (tn : String) : String :=
  "graphs: expected every element to be a StellarGraph object, found " ++ tn ++ "."

/-- Modelled from the spec: message for the value-classified failure of the
external single-node-type assertion helper `unique_node_type`, which
`PaddedGraphGenerator.__init__` calls with this template. -/
def pggMultiTypeMsg : String :=
  "graphs: expected only graphs with a single node type, found a graph with node types: %(found)s"

/-- Message of the `ValueError` raised by `PaddedGraphGenerator.__init__`
on inconsistent feature dimensionality. -/
def pggDimMsg (expected found : Nat) : String :=
  "graphs: expected node features for all graph to have same dimensions,found " ++ toString expected ++ " vs " ++ toString found

/-- The validation loop of `PaddedGraphGenerator.__init__`, carrying the
mutable `self.node_features_size` (initially `None`) through the elements
in list order.  Per element: the `isinstance` check (`TypeError`), the
`unique_node_type` assertion (`ValueError` unless there is exactly one node
type — modelled from the spec's "single-node-type assertion helper"),
`check_graph_for_ml` (value-classified per the spec), then the
feature-dimensionality bookkeeping. -/
def PaddedGraphGenerator.checkGraphs :
    List GraphInput → Option Nat → Except PyError (Option Nat)
  | [], acc => .ok acc
  | x :: rest, acc =>
    match x with
    | .other tn => .error (.typeError (pggGraphTypeMsg tn))
    | .graph g =>
      if g.nodeTypeCount ≠ 1 then .error (.valueError pggMultiTypeMsg)
      else if ¬ g.mlReady then .error (.valueError mlCheckMsg)
      else
        match acc with
        | none => PaddedGraphGenerator.checkGraphs rest (some g.featureDim)
        | some s =>
          if s ≠ g.featureDim then .error (.valueError (pggDimMsg s g.featureDim))
          else PaddedGraphGenerator.checkGraphs rest (some s)

/-- The constructor `PaddedGraphGenerator.__init__(graphs, name)`: run the validation loop,
then assign `self.graphs` and `self.name`. -/
def PaddedGraphGenerator.init (graphs : List GraphInput) (name : Option String) :
    Except PyError PaddedGraphGenerator := do
  let nfs ← PaddedGraphGenerator.checkGraphs graphs none
  pure { graphs := graphs, node_features_size := nfs, name := name }

/-- Message of the targets `TypeError` in `GraphGenerator.flow`. -/
def ggTargetsTypeMsg : String :=
  "GraphGenerator: Targets must be an iterable or None"

/-- Message of the targets-length `ValueError` in `GraphGenerator.flow`. -/
def ggTargetsLenMsg : String :=
  "GraphGenerator: Targets must be the same length as node_ids"

/-- The targets-validation block of `GraphGenerator.flow`: skipped when
`targets is None`; otherwise `is_real_iterable` (`TypeError`) then the
length comparison against `graph_ilocs` (`ValueError`). -/
def GraphGenerator.checkTargets (graph_ilocs : List Int) :
    Option TargetsArg → Except PyError Unit
  | none => .ok ()
  | some (.nonIterable _) => .error (.typeError ggTargetsTypeMsg)
  | some (.iterable rows) =>
    if rows.length ≠ graph_ilocs.length then .error (.valueError ggTargetsLenMsg)
    else .ok ()

/-- The tail of `GraphGenerator.flow`: slice `self.graphs` by the ilocs and
hand everything to the `GraphSequence` constructor (the batch size is
forwarded without any check). -/
def GraphGenerator.makeSequence (self : GraphGenerator) (graph_ilocs : List Int)
    (targets : Option TargetsArg) (batch_size : BatchSizeArg) (name : Option String) :
    Except PyError GraphSequence := do
  let sel ← sliceGraphs self.graphs graph_ilocs
  pure { graphs := sel, targets := targets, batch_size := batch_size, name := name }

/-- The method `GraphGenerator.flow(graph_ilocs, targets=None, batch_size=1, name=None)`.
The method body assigns no attribute of `self`, so the returned state is the
input state. -/
def GraphGenerator.flow (self : GraphGenerator) (graph_ilocs : List Int)
    (targets : Option TargetsArg) (batch_size : BatchSizeArg) (name : Option String) :
    GraphGenerator × Except PyError GraphSequence :=
  (self, do
    GraphGenerator.checkTargets graph_ilocs targets
    GraphGenerator.makeSequence self graph_ilocs targets batch_size name)

/-- Message of the targets `TypeError` in `PaddedGraphGenerator.flow`. -/
def pggTargetsTypeMsg (tn : String) : String :=
  "targets: expected an iterable or None object, found " ++ tn

/-- Message of the targets-length `ValueError` in `PaddedGraphGenerator.flow`. -/
def pggTargetsLenMsg (foundTargets foundIlocs : Nat) : String :=
  "expected targets to be the same length as node_ids, found " ++ toString foundTargets ++ " vs " ++ toString foundIlocs

/-- Message of the batch-size `TypeError` in `PaddedGraphGenerator.flow`. -/
def pggBatchTypeMsg (tn : String) : String :=
  "expected batch_size to be integer type, found " ++ tn

/-- Message of the batch-size `ValueError` in `PaddedGraphGenerator.flow`. -/
def pggBatchValueMsg (n : Int) : String :=
  "expected batch_size to be strictly positive integer, found " ++ toString n

/-- The targets-validation block of `PaddedGraphGenerator.flow`: skipped
when `targets is None`; otherwise `is_real_iterable` (`TypeError`) then the
length comparison against `graph_ilocs` (`ValueError`). -/
def PaddedGraphGenerator.checkTargets (graph_ilocs : List Int) :
    Option TargetsArg → Except PyError Unit
  | none => .ok ()
  | some (.nonIterable tn) => .error (.typeError (pggTargetsTypeMsg tn))
  | some (.iterable rows) =>
    if rows.length ≠ graph_ilocs.length then
      .error (.valueError (pggTargetsLenMsg rows.length graph_ilocs.length))
    else .ok ()

/-- The batch-size validation of `PaddedGraphGenerator.flow`:
`isinstance(batch_size, int)` (`TypeError`), then strict positivity
(`ValueError`); on success the integer is passed on. -/
def PaddedGraphGenerator.checkBatchSize : BatchSizeArg → Except PyError Int
  | .other tn => .error (.typeError (pggBatchTypeMsg tn))
  | .int n =>
    if n ≤ 0 then .error (.valueError (pggBatchValueMsg n))
    else .ok n

/-- The tail of `PaddedGraphGenerator.flow` after the targets block: the
batch-size checks, the slice of `self.graphs`, and the call to the
`PaddedGraphSequence` constructor. -/
def PaddedGraphGenerator.buildSequence (self : PaddedGraphGenerator)
    (graph_ilocs : List Int) (targets : Option TargetsArg)
    (symmetric_normalization : Bool) (batch_size : BatchSizeArg)
    (name : Option String) (shuffle : Bool) (seed : Option Int) :
    Except PyError PaddedGraphSequence := do
  let b ← PaddedGraphGenerator.checkBatchSize batch_size
  let sel ← sliceGraphs self.graphs graph_ilocs
  pure { graphs := sel, targets := targets,
         symmetric_normalization := symmetric_normalization, batch_size := b,
         name := name, shuffle := shuffle, seed := seed }

/-- The method `PaddedGraphGenerator.flow(graph_ilocs, targets=None,
symmetric_normalization=True, batch_size=1, name=None, shuffle=False,
seed=None)`.  The method body assigns no attribute of `self`, so the
returned state is the input state. -/
def PaddedGraphGenerator.flow (self : PaddedGraphGenerator) (graph_ilocs : List Int)
    (targets : Option TargetsArg) (symmetric_normalization : Bool)
    (batch_size : BatchSizeArg) (name : Option String) (shuffle : Bool)
    (seed : Option Int) :
    PaddedGraphGenerator × Except PyError PaddedGraphSequence :=
  (self, do
    PaddedGraphGenerator.checkTargets graph_ilocs targets
    PaddedGraphGenerator.buildSequence self graph_ilocs targets
      symmetric_normalization batch_size name shuffle seed)

/-- Classification of an adapter call outcome: success, or the class of the
raised exception. -/
inductive Outcome where
  | ok
  | typeError
  | valueError
  | indexError
  deriving Repr, DecidableEq

/-- The outcome class of a fallible adapter computation. -/
def classify {α : Type} : Except PyError α → Outcome
  | .ok _ => .ok
  | .error (.typeError _) => .typeError
  | .error (.valueError _) => .valueError
  | .error .indexError => .indexError

/-- A concrete single-node-type, ML-ready graph with 4-dimensional node
features, used to instantiate the general theorems below. -/
def demoGraph : StellarGraph :=
  { nodeTypeCount := 1, featureDim := 4, mlReady := true }

/-- A concrete constructed unpadded generator holding just `demoGraph`. -/
def demoGG : GraphGenerator :=
  { graphs := [GraphInput.graph demoGraph], node_features_size := 4, name := none }

/-- A concrete constructed padded generator holding just `demoGraph`. -/
def demoPGG : PaddedGraphGenerator :=
  { graphs := [GraphInput.graph demoGraph], node_features_size := some 4, name := none }

/-- A valid Python index resolves to an in-bounds natural position. -/
theorem pyResolve_bounds (n : Nat) (i : Int) (h : pyValidIndex n i) :
    0 ≤ pyResolve n i ∧ (pyResolve n i).toNat < n := by
  unfold pyValidIndex at h
  unfold pyResolve
  split <;> omega

/-- An invalid Python index resolves out of bounds. -/
theorem pyResolve_not_bounds (n : Nat) (i : Int) (h : ¬ pyValidIndex n i) :
    ¬ (0 ≤ pyResolve n i ∧ (pyResolve n i).toNat < n) := by
  unfold pyValidIndex at h
  unfold pyResolve
  split <;> omega

/-- On a valid index, Python indexing returns the selected element. -/
theorem pyGetItem_ok_of_valid (xs : List GraphInput) (i : Int)
    (h : pyValidIndex xs.length i) :
    pyGetItem xs i = Except.ok (pyNth xs i) := by
  have hcond := pyResolve_bounds xs.length i h
  have heq : pyGetItem xs i =
      Except.ok (xs.get ⟨(pyResolve xs.length i).toNat, hcond.2⟩) := by
    unfold pyGetItem
    rw [dif_pos hcond]
  rw [heq]
  unfold pyNth
  rw [heq]
  simp [Except.toOption]

/-- On an invalid index, Python indexing raises the unclassified
`IndexError`. -/
theorem pyGetItem_error_of_invalid (xs : List GraphInput) (i : Int)
    (h : ¬ pyValidIndex xs.length i) :
    pyGetItem xs i = Except.error PyError.indexError := by
  have hcond := pyResolve_not_bounds xs.length i h
  unfold pyGetItem
  rw [dif_neg hcond]

/-- When every index is valid, the slicing comprehension succeeds and
returns exactly the selected graphs, in the order of the index list. -/
theorem sliceGraphs_ok_of_valid (graphs : List GraphInput) (ilocs : List Int)
    (h : ∀ i ∈ ilocs, pyValidIndex graphs.length i) :
    sliceGraphs graphs ilocs = Except.ok (ilocs.map (pyNth graphs)) := by
  induction ilocs with
  | nil => rfl
  | cons i rest ih =>
    have hi := h i (List.mem_cons_self i rest)
    have hrest : ∀ j ∈ rest, pyValidIndex graphs.length j :=
      fun j hj => h j (List.mem_cons_of_mem i hj)
    simp [sliceGraphs, pyGetItem_ok_of_valid graphs i hi, ih hrest, Bind.bind,
      Except.bind, Pure.pure, Except.pure]

/-- When some index is invalid, the slicing comprehension raises the
unclassified `IndexError`. -/
theorem sliceGraphs_error_of_invalid (graphs : List GraphInput) (ilocs : List Int)
    (h : ∃ i ∈ ilocs, ¬ pyValidIndex graphs.length i) :
    sliceGraphs graphs ilocs = Except.error PyError.indexError := by
  induction ilocs with
  | nil =>
    obtain ⟨i, hi, _⟩ := h
    cases hi
  | cons i rest ih =>
    by_cases hv : pyValidIndex graphs.length i
    · have hrest : ∃ j ∈ rest, ¬ pyValidIndex graphs.length j := by
        obtain ⟨j, hj, hnv⟩ := h
        rcases List.mem_cons.mp hj with rfl | hmem
        · exact absurd hv hnv
        · exact ⟨j, hmem, hnv⟩
      simp [sliceGraphs, pyGetItem_ok_of_valid graphs i hv, ih hrest, Bind.bind,
        Except.bind]
    · simp [sliceGraphs, pyGetItem_error_of_invalid graphs i hv, Bind.bind,
        Except.bind]

/-- A fully valid graph at the head of the padded validation loop, starting
with no recorded dimensionality, records its feature dimensionality. -/
theorem checkGraphs_cons_good_none (g : StellarGraph) (l : List GraphInput)
    (h1 : g.nodeTypeCount = 1) (h2 : g.mlReady = true) :
    PaddedGraphGenerator.checkGraphs (GraphInput.graph g :: l) none =
      PaddedGraphGenerator.checkGraphs l (some g.featureDim) := by
  simp [PaddedGraphGenerator.checkGraphs, h1, h2]

/-- The padded validation loop passes over a run of fully valid graphs whose
dimensionality agrees with the recorded one. -/
theorem checkGraphs_skip_good (d : Nat) (pre l : List GraphInput)
    (h : ∀ x ∈ pre, goodInput d x) :
    PaddedGraphGenerator.checkGraphs (pre ++ l) (some d) =
      PaddedGraphGenerator.checkGraphs l (some d) := by
  induction pre with
  | nil => rfl
  | cons x pre ih =>
    obtain ⟨g, rfl, h1, h2, h3⟩ := h x (List.mem_cons_self x pre)
    subst h3
    simp [PaddedGraphGenerator.checkGraphs, h1, h2]
    exact ih fun y hy => h y (List.mem_cons_of_mem _ hy)

/-- On a list of actual graphs one of which has several node types, the
padded validation loop fails with some value-classified error, whatever
dimensionality is recorded so far. -/
theorem checkGraphs_valueError_of_multi :
    ∀ (gs : List GraphInput) (acc : Option Nat),
      (∀ x ∈ gs, x.isStellarGraph = true) →
      (∃ x ∈ gs, 1 < x.nodeTypeCount) →
      ∃ m, PaddedGraphGenerator.checkGraphs gs acc =
        Except.error (PyError.valueError m) := by
  intro gs
  induction gs with
  | nil =>
    intro acc _ hmulti
    obtain ⟨x, hx, _⟩ := hmulti
    cases hx
  | cons x rest ih =>
    intro acc hall hmulti
    cases x with
    | other tn =>
      have hx := hall _ (List.mem_cons_self _ _)
      simp [GraphInput.isStellarGraph] at hx
    | graph g =>
      by_cases hnt : g.nodeTypeCount = 1
      · by_cases hml : g.mlReady = true
        · have hrest : ∃ y ∈ rest, 1 < y.nodeTypeCount := by
            obtain ⟨y, hy, hgt⟩ := hmulti
            rcases List.mem_cons.mp hy with rfl | hmem
            · simp [GraphInput.nodeTypeCount, hnt] at hgt
            · exact ⟨y, hmem, hgt⟩
          have hallrest : ∀ y ∈ rest, y.isStellarGraph = true :=
            fun y hy => hall y (List.mem_cons_of_mem _ hy)
          cases acc with
          | none =>
            rw [checkGraphs_cons_good_none g rest hnt hml]
            exact ih _ hallrest hrest
          | some s =>
            by_cases hdim : s = g.featureDim
            · subst hdim
              simp only [PaddedGraphGenerator.checkGraphs, hnt, hml]
              simp
              exact ih _ hallrest hrest
            · exact ⟨pggDimMsg s g.featureDim, by
                simp [PaddedGraphGenerator.checkGraphs, hnt, hml, hdim]⟩
        · exact ⟨mlCheckMsg, by simp [PaddedGraphGenerator.checkGraphs, hnt, hml]⟩
      · exact ⟨pggMultiTypeMsg, by simp [PaddedGraphGenerator.checkGraphs, hnt]⟩

/-- C9: constructing with an empty graph list behaves differently across
variants: `GraphGenerator.__init__` fails with the unclassified indexing
error coming from the unguarded read of `graphs[0]` when recording the
feature dimensionality, while `PaddedGraphGenerator.__init__` succeeds,
leaving `node_features_size` equal to `None`. -/
theorem c9_empty_list_divergence (nm : Option String) :
    GraphGenerator.init [] nm = Except.error PyError.indexError ∧
    PaddedGraphGenerator.init [] nm =
      Except.ok { graphs := [], node_features_size := none, name := nm } :=
  ⟨rfl, rfl⟩

/-- C8: for both generator types the recorded configuration is set once at
construction and never modified by `flow`: the state component returned by
either `flow` is the input state itself, whatever the arguments and whether
the result component is a sequence or an error. -/
theorem c8_flow_leaves_state_unchanged (g : GraphGenerator)
    (p : PaddedGraphGenerator) (ilocsG ilocsP : List Int)
    (targetsG targetsP : Option TargetsArg) (bsG bsP : BatchSizeArg)
    (nmG nmP : Option String) (sym shuffle : Bool) (seed : Option Int) :
    (GraphGenerator.flow g ilocsG targetsG bsG nmG).1 = g ∧
    (PaddedGraphGenerator.flow p ilocsP targetsP sym bsP nmP shuffle seed).1 = p :=
  ⟨rfl, rfl⟩

/-- C2 is refuted: `GraphGenerator.flow` does not validate the batch size.
Called with the invalid batch size `0` (and otherwise valid arguments) it
succeeds, forwarding the `0` unchanged into the constructed sequence
instead of rejecting it. -/
theorem c2_counterexample :
    (GraphGenerator.flow demoGG [0] none (BatchSizeArg.int 0) none).2 =
      Except.ok { graphs := [GraphInput.graph demoGraph], targets := none,
                  batch_size := BatchSizeArg.int 0, name := none } := by
  rfl

/-- C2 (amended): only `PaddedGraphGenerator.flow` validates the batch size
before delegating to the sequence constructor; `GraphGenerator.flow`
performs no batch-size check and forwards the batch size unchanged to the
sequence constructor (its success and errors are independent of the batch
size). -/
theorem c2_batch_size_validation_asymmetry (g : GraphGenerator)
    (p : PaddedGraphGenerator) (ilocs ilocsP : List Int)
    (targets targetsP : Option TargetsArg) (bs bs2 : BatchSizeArg)
    (nm nmP : Option String) (sym shuffle : Bool) (seed : Option Int)
    (tn : String) (n : Int)
    (htargetsP : PaddedGraphGenerator.checkTargets ilocsP targetsP = Except.ok ()) :
    (∀ seq, (GraphGenerator.flow g ilocs targets bs nm).2 = Except.ok seq →
      seq.batch_size = bs) ∧
    (∀ e, (GraphGenerator.flow g ilocs targets bs nm).2 = Except.error e ↔
      (GraphGenerator.flow g ilocs targets bs2 nm).2 = Except.error e) ∧
    (PaddedGraphGenerator.flow p ilocsP targetsP sym (BatchSizeArg.other tn)
        nmP shuffle seed).2 =
      Except.error (PyError.typeError (pggBatchTypeMsg tn)) ∧
    (n ≤ 0 →
      (PaddedGraphGenerator.flow p ilocsP targetsP sym (BatchSizeArg.int n)
          nmP shuffle seed).2 =
        Except.error (PyError.valueError (pggBatchValueMsg n))) := by
  refine ⟨?_, ?_, ?_, ?_⟩
  · intro seq hseq
    cases hct : GraphGenerator.checkTargets ilocs targets with
    | error e =>
      simp [GraphGenerator.flow, hct, Bind.bind, Except.bind] at hseq
    | ok u =>
      cases hsl : sliceGraphs g.graphs ilocs with
      | error e =>
        simp [GraphGenerator.flow, GraphGenerator.makeSequence, hct, hsl,
          Bind.bind, Except.bind] at hseq
      | ok sel =>
        simp [GraphGenerator.flow, GraphGenerator.makeSequence, hct, hsl,
          Bind.bind, Except.bind, Pure.pure, Except.pure] at hseq
        rw [← hseq]
  · intro e
    cases hct : GraphGenerator.checkTargets ilocs targets with
    | error e0 =>
      simp [GraphGenerator.flow, hct, Bind.bind, Except.bind]
    | ok u =>
      cases hsl : sliceGraphs g.graphs ilocs with
      | error e1 =>
        simp [GraphGenerator.flow, GraphGenerator.makeSequence, hct, hsl,
          Bind.bind, Except.bind]
      | ok sel =>
        simp [GraphGenerator.flow, GraphGenerator.makeSequence, hct, hsl,
          Bind.bind, Except.bind, Pure.pure, Except.pure]
  · simp [PaddedGraphGenerator.flow, PaddedGraphGenerator.buildSequence,
      PaddedGraphGenerator.checkBatchSize, htargetsP, Bind.bind, Except.bind]
  · intro hn
    simp [PaddedGraphGenerator.flow, PaddedGraphGenerator.buildSequence,
      PaddedGraphGenerator.checkBatchSize, htargetsP, hn, Bind.bind,
      Except.bind]

/-- Witness for the amended C2 at a concrete generator: the padded `flow`
rejects a non-integer and a zero batch size. -/
theorem c2_witness :
    (PaddedGraphGenerator.flow demoPGG [0] none true (BatchSizeArg.other "str")
        none false none).2 =
      Except.error (PyError.typeError (pggBatchTypeMsg "str")) ∧
    (PaddedGraphGenerator.flow demoPGG [0] none true (BatchSizeArg.int 0)
        none false none).2 =
      Except.error (PyError.valueError (pggBatchValueMsg 0)) :=
  ⟨(c2_batch_size_validation_asymmetry demoGG demoPGG [0] [0] none none
      (BatchSizeArg.int 0) (BatchSizeArg.int 1) none none true false none
      "str" 0 (by rfl)).2.2.1,
   (c2_batch_size_validation_asymmetry demoGG demoPGG [0] [0] none none
      (BatchSizeArg.int 0) (BatchSizeArg.int 1) none none true false none
      "str" 0 (by rfl)).2.2.2 (by decide)⟩

/-- C3: constructing the padded generator from two single-node-type,
ML-ready graphs of differing feature dimensionality fails with a
value-classified error, while the unpadded generator on the same graphs
performs no cross-graph dimensionality check, succeeds, and records the
first graph's feature dimensionality. -/
theorem c3_dim_crosscheck_asymmetry (g1 g2 : StellarGraph) (nm : Option String)
    (h1t : g1.nodeTypeCount = 1) (h1m : g1.mlReady = true)
    (h2t : g2.nodeTypeCount = 1) (h2m : g2.mlReady = true)
    (hdim : g1.featureDim ≠ g2.featureDim) :
    PaddedGraphGenerator.init [GraphInput.graph g1, GraphInput.graph g2] nm =
      Except.error (PyError.valueError (pggDimMsg g1.featureDim g2.featureDim)) ∧
    GraphGenerator.init [GraphInput.graph g1, GraphInput.graph g2] nm =
      Except.ok { graphs := [GraphInput.graph g1, GraphInput.graph g2],
                  node_features_size := g1.featureDim, name := nm } := by
  constructor
  · simp [PaddedGraphGenerator.init, PaddedGraphGenerator.checkGraphs, h1t,
      h1m, h2t, h2m, hdim, Bind.bind, Except.bind]
  · simp [GraphGenerator.init, GraphInput.isStellarGraph, GraphInput.mlReady,
      GraphInput.nodeTypeCount, GraphInput.featureDim, h1t, h1m, h2t, h2m]

/-- Witness for C3 with concrete feature dimensionalities 4 and 5. -/
theorem c3_witness :
    PaddedGraphGenerator.init
        [GraphInput.graph ⟨1, 4, true⟩, GraphInput.graph ⟨1, 5, true⟩] none =
      Except.error (PyError.valueError (pggDimMsg 4 5)) ∧
    GraphGenerator.init
        [GraphInput.graph ⟨1, 4, true⟩, GraphInput.graph ⟨1, 5, true⟩] none =
      Except.ok { graphs := [GraphInput.graph ⟨1, 4, true⟩,
                             GraphInput.graph ⟨1, 5, true⟩],
                  node_features_size := 4, name := none } :=
  c3_dim_crosscheck_asymmetry ⟨1, 4, true⟩ ⟨1, 5, true⟩ none rfl rfl rfl rfl
    (by decide)

/-- C1 is refuted: a list of graphs that all have a single node type and
ML-ready features does not guarantee successful construction — the padded
generator rejects the list when the feature dimensionalities differ. -/
theorem c1_counterexample :
    ((GraphInput.graph ⟨1, 4, true⟩).nodeTypeCount = 1 ∧
      (GraphInput.graph ⟨1, 4, true⟩).mlReady = true ∧
      (GraphInput.graph ⟨1, 5, true⟩).nodeTypeCount = 1 ∧
      (GraphInput.graph ⟨1, 5, true⟩).mlReady = true) ∧
    PaddedGraphGenerator.init
        [GraphInput.graph ⟨1, 4, true⟩, GraphInput.graph ⟨1, 5, true⟩] none =
      Except.error (PyError.valueError (pggDimMsg 4 5)) :=
  ⟨⟨rfl, rfl, rfl, rfl⟩, rfl⟩

/-- C1 (amended): for every non-empty list of graphs in which every graph
has a single node type, ML-ready node features, and the same feature
dimensionality, construction of both generators succeeds and records that
dimensionality as `node_features_size`. -/
theorem c1_uniform_construction_records_dim (g0 : StellarGraph)
    (gs : List StellarGraph) (nm : Option String)
    (hall : ∀ g ∈ g0 :: gs, g.nodeTypeCount = 1 ∧ g.mlReady = true)
    (hdim : ∀ g ∈ gs, g.featureDim = g0.featureDim) :
    GraphGenerator.init ((g0 :: gs).map GraphInput.graph) nm =
      Except.ok { graphs := (g0 :: gs).map GraphInput.graph,
                  node_features_size := g0.featureDim, name := nm } ∧
    PaddedGraphGenerator.init ((g0 :: gs).map GraphInput.graph) nm =
      Except.ok { graphs := (g0 :: gs).map GraphInput.graph,
                  node_features_size := some g0.featureDim, name := nm } := by
  have hinst : ((g0 :: gs).map GraphInput.graph).all GraphInput.isStellarGraph = true := by
    rw [List.all_eq_true]
    intro x hx
    rw [List.mem_map] at hx
    obtain ⟨g, _, rfl⟩ := hx
    rfl
  have hml : ((g0 :: gs).map GraphInput.graph).all GraphInput.mlReady = true := by
    rw [List.all_eq_true]
    intro x hx
    rw [List.mem_map] at hx
    obtain ⟨g, hg, rfl⟩ := hx
    exact (hall g hg).2
  have hnt : ((g0 :: gs).map GraphInput.graph).all
      (fun g => g.nodeTypeCount ≤ 1) = true := by
    rw [List.all_eq_true]
    intro x hx
    rw [List.mem_map] at hx
    obtain ⟨g, hg, rfl⟩ := hx
    simp [GraphInput.nodeTypeCount, (hall g hg).1]
  constructor
  · unfold GraphGenerator.init
    rw [List.map_cons] at hinst hml hnt ⊢
    rw [hinst, hml, hnt]
    simp [GraphInput.featureDim]
  · have hgood : ∀ x ∈ gs.map GraphInput.graph, goodInput g0.featureDim x := by
      intro x hx
      rw [List.mem_map] at hx
      obtain ⟨g, hg, rfl⟩ := hx
      exact ⟨g, rfl, (hall g (List.mem_cons_of_mem _ hg)).1,
        (hall g (List.mem_cons_of_mem _ hg)).2, hdim g hg⟩
    have hcheck : PaddedGraphGenerator.checkGraphs
        ((g0 :: gs).map GraphInput.graph) none = Except.ok (some g0.featureDim) := by
      rw [List.map_cons,
        checkGraphs_cons_good_none g0 _ (hall g0 (List.mem_cons_self g0 gs)).1
          (hall g0 (List.mem_cons_self g0 gs)).2,
        show gs.map GraphInput.graph = gs.map GraphInput.graph ++ [] from
          (List.append_nil _).symm,
        checkGraphs_skip_good g0.featureDim (gs.map GraphInput.graph) [] hgood]
      rfl
    rw [List.map_cons] at hcheck
    simp [PaddedGraphGenerator.init, hcheck, Bind.bind, Except.bind,
      Pure.pure, Except.pure]

/-- Witness for the amended C1 on two concrete uniform graphs. -/
theorem c1_witness :
    GraphGenerator.init
        [GraphInput.graph ⟨1, 4, true⟩, GraphInput.graph ⟨1, 4, true⟩] none =
      Except.ok { graphs := [GraphInput.graph ⟨1, 4, true⟩,
                             GraphInput.graph ⟨1, 4, true⟩],
                  node_features_size := 4, name := none } ∧
    PaddedGraphGenerator.init
        [GraphInput.graph ⟨1, 4, true⟩, GraphInput.graph ⟨1, 4, true⟩] none =
      Except.ok { graphs := [GraphInput.graph ⟨1, 4, true⟩,
                             GraphInput.graph ⟨1, 4, true⟩],
                  node_features_size := some 4, name := none } :=
  c1_uniform_construction_records_dim ⟨1, 4, true⟩ [⟨1, 4, true⟩] none
    (by decide) (by decide)

/-- C4 is refuted for the padded generator: a list containing a
non-StellarGraph element (here preceded by a multi-node-type graph) makes
construction fail with a VALUE-classified error, not the type-classified
error the claim promises whenever a non-graph element is present. -/
theorem c4_counterexample :
    (GraphInput.other "int").isStellarGraph = false ∧
    PaddedGraphGenerator.init
        [GraphInput.graph ⟨2, 4, true⟩, GraphInput.other "int"] none =
      Except.error (PyError.valueError pggMultiTypeMsg) :=
  ⟨rfl, rfl⟩

/-- C4 (amended): for the unpadded generator, any non-StellarGraph element
gives a type-classified failure (its isinstance loop runs over the whole
list first), and on a list of actual graphs any multi-node-type graph gives
a value-classified failure.  For the padded generator, which validates each
element fully in list order, the error corresponds to the earliest
defective element: a non-StellarGraph element preceded only by fully valid,
dimension-consistent graphs gives a type-classified failure, and on a list
of actual graphs a multi-node-type graph gives a value-classified
failure. -/
theorem c4_error_classification (gsA gsB gsD pre rest : List GraphInput)
    (tn : String) (nm : Option String) (d : Nat) :
    ((∃ x ∈ gsA, x.isStellarGraph = false) →
      GraphGenerator.init gsA nm =
        Except.error (PyError.typeError ggGraphTypeMsg)) ∧
    ((∀ x ∈ gsB, x.isStellarGraph = true) →
      (∃ x ∈ gsB, 1 < x.nodeTypeCount) →
      classify (GraphGenerator.init gsB nm) = Outcome.valueError) ∧
    ((∀ x ∈ pre, goodInput d x) →
      PaddedGraphGenerator.init (pre ++ GraphInput.other tn :: rest) nm =
        Except.error (PyError.typeError (pggGraphTypeMsg tn))) ∧
    ((∀ x ∈ gsD, x.isStellarGraph = true) →
      (∃ x ∈ gsD, 1 < x.nodeTypeCount) →
      classify (PaddedGraphGenerator.init gsD nm) = Outcome.valueError) := by
  refine ⟨?_, ?_, ?_, ?_⟩
  · rintro ⟨x, hx, hxf⟩
    have hna : ¬ (gsA.all GraphInput.isStellarGraph = true) := by
      rw [List.all_eq_true]
      intro hallx
      have hcontra := hallx x hx
      rw [hxf] at hcontra
      cases hcontra
    unfold GraphGenerator.init
    rw [if_pos hna]
  · intro hall hmulti
    obtain ⟨y, hy, hygt⟩ := hmulti
    cases gsB with
    | nil => cases hy
    | cons x0 t =>
      have hinst : (x0 :: t).all GraphInput.isStellarGraph = true :=
        List.all_eq_true.mpr hall
      have hntf : (x0 :: t).all (fun g => g.nodeTypeCount ≤ 1) = false := by
        rw [Bool.eq_false_iff]
        rw [Ne, List.all_eq_true]
        intro hle
        have h2 := hle y hy
        simp only [decide_eq_true_eq] at h2
        omega
      by_cases hml : (x0 :: t).all GraphInput.mlReady = true
      · unfold GraphGenerator.init
        simp only [hinst, hml, hntf]
        simp [classify]
      · have hmlf : (x0 :: t).all GraphInput.mlReady = false :=
          Bool.eq_false_iff.mpr hml
        unfold GraphGenerator.init
        simp only [hinst, hmlf]
        simp [classify]
  · intro hg
    have hcheck : PaddedGraphGenerator.checkGraphs
        (pre ++ GraphInput.other tn :: rest) none =
        Except.error (PyError.typeError (pggGraphTypeMsg tn)) := by
      cases pre with
      | nil => rfl
      | cons x pre2 =>
        obtain ⟨g, rfl, h1, h2, h3⟩ := hg x (List.mem_cons_self x pre2)
        rw [List.cons_append, checkGraphs_cons_good_none g _ h1 h2, h3,
          checkGraphs_skip_good d pre2 _
            (fun y hy => hg y (List.mem_cons_of_mem _ hy))]
        rfl
    simp [PaddedGraphGenerator.init, hcheck, Bind.bind, Except.bind]
  · intro hall hmulti
    obtain ⟨m, hm⟩ := checkGraphs_valueError_of_multi gsD none hall hmulti
    simp [PaddedGraphGenerator.init, hm, Bind.bind, Except.bind, classify]

/-- Witness for the amended C4 at concrete inputs: a lone non-graph element
(unpadded, type error), a lone two-node-type graph (both generators, value
error), and a non-graph element after one valid graph (padded, type
error). -/
theorem c4_witness :
    GraphGenerator.init [GraphInput.other "int"] none =
      Except.error (PyError.typeError ggGraphTypeMsg) ∧
    classify (GraphGenerator.init [GraphInput.graph ⟨2, 4, true⟩] none) =
      Outcome.valueError ∧
    PaddedGraphGenerator.init
        [GraphInput.graph ⟨1, 4, true⟩, GraphInput.other "int"] none =
      Except.error (PyError.typeError (pggGraphTypeMsg "int")) ∧
    classify (PaddedGraphGenerator.init [GraphInput.graph ⟨2, 4, true⟩] none) =
      Outcome.valueError := by
  have h := c4_error_classification [GraphInput.other "int"]
    [GraphInput.graph ⟨2, 4, true⟩] [GraphInput.graph ⟨2, 4, true⟩]
    [GraphInput.graph ⟨1, 4, true⟩] [] "int" none 4
  exact ⟨h.1 ⟨GraphInput.other "int", by decide, rfl⟩,
    h.2.1 (by decide) ⟨GraphInput.graph ⟨2, 4, true⟩, by decide, by decide⟩,
    h.2.2.1 (by
      intro x hx
      rw [List.mem_singleton] at hx
      subst hx
      exact ⟨⟨1, 4, true⟩, rfl, rfl, rfl, rfl⟩),
    h.2.2.2 (by decide) ⟨GraphInput.graph ⟨2, 4, true⟩, by decide, by decide⟩⟩

/-- C5: `PaddedGraphGenerator.flow` with batch size `0` or `-1` fails with a
value-classified error, with a non-integer batch size fails with a
type-classified error, and with any integer batch size at least 1 (and
otherwise valid arguments) succeeds. -/
theorem c5_padded_flow_batch_size (p : PaddedGraphGenerator)
    (ilocs : List Int) (targets : Option TargetsArg) (sym shuffle : Bool)
    (nm : Option String) (seed : Option Int) (tn : String) (n : Int)
    (htargets : PaddedGraphGenerator.checkTargets ilocs targets = Except.ok ())
    (hilocs : ∀ i ∈ ilocs, pyValidIndex p.graphs.length i) :
    (PaddedGraphGenerator.flow p ilocs targets sym (BatchSizeArg.int 0) nm
        shuffle seed).2 =
      Except.error (PyError.valueError (pggBatchValueMsg 0)) ∧
    (PaddedGraphGenerator.flow p ilocs targets sym (BatchSizeArg.int (-1)) nm
        shuffle seed).2 =
      Except.error (PyError.valueError (pggBatchValueMsg (-1))) ∧
    (PaddedGraphGenerator.flow p ilocs targets sym (BatchSizeArg.other tn) nm
        shuffle seed).2 =
      Except.error (PyError.typeError (pggBatchTypeMsg tn)) ∧
    (1 ≤ n →
      (PaddedGraphGenerator.flow p ilocs targets sym (BatchSizeArg.int n) nm
          shuffle seed).2 =
        Except.ok { graphs := ilocs.map (pyNth p.graphs), targets := targets,
                    symmetric_normalization := sym, batch_size := n,
                    name := nm, shuffle := shuffle, seed := seed }) := by
  have hslice := sliceGraphs_ok_of_valid p.graphs ilocs hilocs
  have h0 : ((0 : Int) ≤ 0) = True := by simp
  have h1 : ((-1 : Int) ≤ 0) = True := by norm_num
  refine ⟨?_, ?_, ?_, ?_⟩
  · simp [PaddedGraphGenerator.flow, PaddedGraphGenerator.buildSequence,
      PaddedGraphGenerator.checkBatchSize, htargets, h0, Bind.bind, Except.bind]
  · simp [PaddedGraphGenerator.flow, PaddedGraphGenerator.buildSequence,
      PaddedGraphGenerator.checkBatchSize, htargets, h1, Bind.bind, Except.bind]
  · simp [PaddedGraphGenerator.flow, PaddedGraphGenerator.buildSequence,
      PaddedGraphGenerator.checkBatchSize, htargets, Bind.bind, Except.bind]
  · intro hn
    have hn0 : ¬ (n ≤ 0) := by omega
    simp [PaddedGraphGenerator.flow, PaddedGraphGenerator.buildSequence,
      PaddedGraphGenerator.checkBatchSize, htargets, hn0, hslice, Bind.bind,
      Except.bind, Pure.pure, Except.pure]

/-- Witness for C5 on a concrete padded generator: batch sizes 0 and -1 are
value errors, a non-integer is a type error, and batch size 1 succeeds. -/
theorem c5_witness :
    (PaddedGraphGenerator.flow demoPGG [0] none true (BatchSizeArg.int 0)
        none false none).2 =
      Except.error (PyError.valueError (pggBatchValueMsg 0)) ∧
    (PaddedGraphGenerator.flow demoPGG [0] none true (BatchSizeArg.int (-1))
        none false none).2 =
      Except.error (PyError.valueError (pggBatchValueMsg (-1))) ∧
    (PaddedGraphGenerator.flow demoPGG [0] none true (BatchSizeArg.other "float")
        none false none).2 =
      Except.error (PyError.typeError (pggBatchTypeMsg "float")) ∧
    (PaddedGraphGenerator.flow demoPGG [0] none true (BatchSizeArg.int 1)
        none false none).2 =
      Except.ok { graphs := [GraphInput.graph demoGraph], targets := none,
                  symmetric_normalization := true, batch_size := 1,
                  name := none, shuffle := false, seed := none } := by
  have h := c5_padded_flow_batch_size demoPGG [0] none true false none none
    "float" 1 (by rfl) (by decide)
  exact ⟨h.1, h.2.1, h.2.2.1, h.2.2.2 (le_refl 1)⟩

/-- C6: for both flow operations, a non-iterable `targets` raises a
type-classified error; an iterable `targets` whose length differs from the
index list raises a value-classified error; and `targets = None` skips the
whole targets block, the flow continuing directly with the remainder of the
method (so no target-related error can arise). -/
theorem c6_targets_validation (g : GraphGenerator) (p : PaddedGraphGenerator)
    (ilocs ilocsP : List Int) (rows rowsP : List (List Int)) (tn tnP : String)
    (bs bsP : BatchSizeArg) (nm nmP : Option String) (sym shuffle : Bool)
    (seed : Option Int) :
    ((GraphGenerator.flow g ilocs (some (TargetsArg.nonIterable tn)) bs nm).2 =
      Except.error (PyError.typeError ggTargetsTypeMsg)) ∧
    ((PaddedGraphGenerator.flow p ilocsP (some (TargetsArg.nonIterable tnP))
        sym bsP nmP shuffle seed).2 =
      Except.error (PyError.typeError (pggTargetsTypeMsg tnP))) ∧
    (rows.length ≠ ilocs.length →
      (GraphGenerator.flow g ilocs (some (TargetsArg.iterable rows)) bs nm).2 =
        Except.error (PyError.valueError ggTargetsLenMsg)) ∧
    (rowsP.length ≠ ilocsP.length →
      (PaddedGraphGenerator.flow p ilocsP (some (TargetsArg.iterable rowsP))
          sym bsP nmP shuffle seed).2 =
        Except.error (PyError.valueError
          (pggTargetsLenMsg rowsP.length ilocsP.length))) ∧
    ((GraphGenerator.flow g ilocs none bs nm).2 =
      GraphGenerator.makeSequence g ilocs none bs nm) ∧
    ((PaddedGraphGenerator.flow p ilocsP none sym bsP nmP shuffle seed).2 =
      PaddedGraphGenerator.buildSequence p ilocsP none sym bsP nmP shuffle
        seed) := by
  refine ⟨?_, ?_, ?_, ?_, ?_, ?_⟩
  · simp [GraphGenerator.flow, GraphGenerator.checkTargets, Bind.bind,
      Except.bind]
  · simp [PaddedGraphGenerator.flow, PaddedGraphGenerator.checkTargets,
      Bind.bind, Except.bind]
  · intro h
    simp [GraphGenerator.flow, GraphGenerator.checkTargets, h, Bind.bind,
      Except.bind]
  · intro h
    simp [PaddedGraphGenerator.flow, PaddedGraphGenerator.checkTargets, h,
      Bind.bind, Except.bind]
  · rfl
  · rfl

/-- Witness for C6: length-mismatched targets (2 rows against 1 index) are
rejected with a value-classified error by both generators. -/
theorem c6_witness :
    (GraphGenerator.flow demoGG [0] (some (TargetsArg.iterable [[1], [2]]))
        (BatchSizeArg.int 1) none).2 =
      Except.error (PyError.valueError ggTargetsLenMsg) ∧
    (PaddedGraphGenerator.flow demoPGG [0]
        (some (TargetsArg.iterable [[1], [2]])) true (BatchSizeArg.int 1)
        none false none).2 =
      Except.error (PyError.valueError (pggTargetsLenMsg 2 1)) := by
  have h := c6_targets_validation demoGG demoPGG [0] [0] [[1], [2]] [[1], [2]]
    "str" "str" (BatchSizeArg.int 1) (BatchSizeArg.int 1) none none true false
    none
  exact ⟨h.2.2.1 (by decide), h.2.2.2.1 (by decide)⟩

/-- C7: with valid index positions (and targets passing validation, plus a
valid batch size for the padded variant), both flow operations return a
sequence bound to exactly the graphs selected by the index list, in order,
with repeated indices permitted: the sequence's graph list is the map of
Python indexing into the stored list over `graph_ilocs`. -/
theorem c7_selection_preserves_order (g : GraphGenerator)
    (p : PaddedGraphGenerator) (ilocsG ilocsP : List Int)
    (targetsG targetsP : Option TargetsArg) (bs : BatchSizeArg) (b : Int)
    (nmG nmP : Option String) (sym shuffle : Bool) (seed : Option Int)
    (htG : GraphGenerator.checkTargets ilocsG targetsG = Except.ok ())
    (htP : PaddedGraphGenerator.checkTargets ilocsP targetsP = Except.ok ())
    (hb : 1 ≤ b)
    (hvG : ∀ i ∈ ilocsG, pyValidIndex g.graphs.length i)
    (hvP : ∀ i ∈ ilocsP, pyValidIndex p.graphs.length i) :
    (GraphGenerator.flow g ilocsG targetsG bs nmG).2 =
      Except.ok { graphs := ilocsG.map (pyNth g.graphs), targets := targetsG,
                  batch_size := bs, name := nmG } ∧
    (PaddedGraphGenerator.flow p ilocsP targetsP sym (BatchSizeArg.int b) nmP
        shuffle seed).2 =
      Except.ok { graphs := ilocsP.map (pyNth p.graphs), targets := targetsP,
                  symmetric_normalization := sym, batch_size := b,
                  name := nmP, shuffle := shuffle, seed := seed } := by
  constructor
  · simp [GraphGenerator.flow, GraphGenerator.makeSequence, htG,
      sliceGraphs_ok_of_valid g.graphs ilocsG hvG, Bind.bind, Except.bind,
      Pure.pure, Except.pure]
  · have hb0 : ¬ (b ≤ 0) := by omega
    simp [PaddedGraphGenerator.flow, PaddedGraphGenerator.buildSequence,
      PaddedGraphGenerator.checkBatchSize, htP, hb0,
      sliceGraphs_ok_of_valid p.graphs ilocsP hvP, Bind.bind, Except.bind,
      Pure.pure, Except.pure]

/-- Witness for C7 with the repeated index list `[0, 0]` and matching
2-row targets on concrete generators. -/
theorem c7_witness :
    (GraphGenerator.flow demoGG [0, 0] (some (TargetsArg.iterable [[1], [2]]))
        (BatchSizeArg.int 1) none).2 =
      Except.ok { graphs := [GraphInput.graph demoGraph,
                             GraphInput.graph demoGraph],
                  targets := some (TargetsArg.iterable [[1], [2]]),
                  batch_size := BatchSizeArg.int 1, name := none } ∧
    (PaddedGraphGenerator.flow demoPGG [0, 0]
        (some (TargetsArg.iterable [[1], [2]])) true (BatchSizeArg.int 1)
        none false none).2 =
      Except.ok { graphs := [GraphInput.graph demoGraph,
                             GraphInput.graph demoGraph],
                  targets := some (TargetsArg.iterable [[1], [2]]),
                  symmetric_normalization := true, batch_size := 1,
                  name := none, shuffle := false, seed := none } :=
  c7_selection_preserves_order demoGG demoPGG [0, 0] [0, 0]
    (some (TargetsArg.iterable [[1], [2]])) (some (TargetsArg.iterable [[1], [2]]))
    (BatchSizeArg.int 1) 1 none none true false none (by rfl) (by rfl)
    (le_refl 1) (by decide) (by decide)

/-- C10: neither flow operation bounds-checks `graph_ilocs`: once the
target checks (and, for the padded variant, the batch-size checks) pass, an
index outside the valid Python range of the stored graph list makes the
slicing step raise the unclassified indexing error; and when an earlier
check fails, that earlier classified error is raised instead even in the
presence of an out-of-range index. -/
theorem c10_unchecked_ilocs (g : GraphGenerator) (p : PaddedGraphGenerator)
    (ilocsG ilocsP : List Int) (targetsG targetsP : Option TargetsArg)
    (bs : BatchSizeArg) (b : Int) (rows : List (List Int))
    (nmG nmP : Option String) (sym shuffle : Bool) (seed : Option Int)
    (htG : GraphGenerator.checkTargets ilocsG targetsG = Except.ok ())
    (htP : PaddedGraphGenerator.checkTargets ilocsP targetsP = Except.ok ())
    (hb : 1 ≤ b)
    (hbadG : ∃ i ∈ ilocsG, ¬ pyValidIndex g.graphs.length i)
    (hbadP : ∃ i ∈ ilocsP, ¬ pyValidIndex p.graphs.length i) :
    (GraphGenerator.flow g ilocsG targetsG bs nmG).2 =
      Except.error PyError.indexError ∧
    (PaddedGraphGenerator.flow p ilocsP targetsP sym (BatchSizeArg.int b) nmP
        shuffle seed).2 =
      Except.error PyError.indexError ∧
    (PaddedGraphGenerator.flow p ilocsP targetsP sym (BatchSizeArg.int 0) nmP
        shuffle seed).2 =
      Except.error (PyError.valueError (pggBatchValueMsg 0)) ∧
    (rows.length ≠ ilocsG.length →
      (GraphGenerator.flow g ilocsG (some (TargetsArg.iterable rows)) bs
          nmG).2 =
        Except.error (PyError.valueError ggTargetsLenMsg)) := by
  have hsG := sliceGraphs_error_of_invalid g.graphs ilocsG hbadG
  have hsP := sliceGraphs_error_of_invalid p.graphs ilocsP hbadP
  have h0 : ((0 : Int) ≤ 0) = True := by simp
  refine ⟨?_, ?_, ?_, ?_⟩
  · simp [GraphGenerator.flow, GraphGenerator.makeSequence, htG, hsG,
      Bind.bind, Except.bind]
  · have hb0 : ¬ (b ≤ 0) := by omega
    simp [PaddedGraphGenerator.flow, PaddedGraphGenerator.buildSequence,
      PaddedGraphGenerator.checkBatchSize, htP, hb0, hsP, Bind.bind,
      Except.bind]
  · simp [PaddedGraphGenerator.flow, PaddedGraphGenerator.buildSequence,
      PaddedGraphGenerator.checkBatchSize, htP, h0, Bind.bind, Except.bind]
  · intro h
    simp [GraphGenerator.flow, GraphGenerator.checkTargets, h, Bind.bind,
      Except.bind]

/-- Witness for C10: index 5 into a one-graph list raises the indexing
error in both flows once the earlier checks pass, and the earlier checks
still win when they fail. -/
theorem c10_witness :
    (GraphGenerator.flow demoGG [5] none (BatchSizeArg.int 1) none).2 =
      Except.error PyError.indexError ∧
    (PaddedGraphGenerator.flow demoPGG [5] none true (BatchSizeArg.int 1)
        none false none).2 =
      Except.error PyError.indexError ∧
    (PaddedGraphGenerator.flow demoPGG [5] none true (BatchSizeArg.int 0)
        none false none).2 =
      Except.error (PyError.valueError (pggBatchValueMsg 0)) ∧
    (GraphGenerator.flow demoGG [5] (some (TargetsArg.iterable [[1], [2]]))
        (BatchSizeArg.int 1) none).2 =
      Except.error (PyError.valueError ggTargetsLenMsg) := by
  have h := c10_unchecked_ilocs demoGG demoPGG [5] [5] none none
    (BatchSizeArg.int 1) 1 [[1], [2]] none none true false none (by rfl)
    (by rfl) (le_refl 1) ⟨5, by decide, by decide⟩ ⟨5, by decide, by decide⟩
  exact ⟨h.1, h.2.1, h.2.2.1, h.2.2.2 (by decide)⟩
